import Mathlib

/-!
Verification of the GhostTap task-orchestration core (server side, protocol
version v3.12-v3.14) against its natural-language specification.

The development shallowly embeds the TypeScript sources:
  * `websocket-gateway.ts` (v3.12 rewrite): `handleUiEvent`, `handlePause`,
    `handleResume`, `handleStop`, `endTask`;
  * `session-manager.ts`: store operations (`updateUiEvent`,
    `addActionRecord`, `updateMetrics`, `updateSessionStatus`, `endSession`,
    `getSessionSync`, `getUserActiveSessionSync`).  The v3.12 revision of this
    file is not shipped in the sources; operations whose v3.12 behaviour is
    only attested by the spec, the `SessionContext` type declarations or the
    protocol documentation are marked `Modelled from the spec:` below;
  * `formatter.ts` (v3.12): `detectSensitiveOperations`, `isLoadingState`;
  * `ai-core.ts` (second revision in the file): `decide`, `callLlmWithRetry`,
    `decisionToCommand`;
  * `http-api.ts`: `handleCreateTask`;
  * `config.ts` defaults (`maxSteps`).

Timestamps and token counts are `Nat`.  Monetary cost (`cost_usd`,
`calculateCost`) is floating point in the source and is not embedded; no
verified property depends on it.  Database writes are asynchronous
fire-and-forget mirrors of the in-memory state in the source and are not
embedded.  Log lines are not embedded.

Concurrency model: node runs the handlers on a single thread; a handler can
only be interleaved with other work at an `await`.  The only `await` inside
the decision cycle of `handleUiEvent` is the `aiCore.decide` call, so the
embedding makes the handler a function of the list of events that other
handler invocations process during each such await (`Interleaved`); each of
those invocations runs its own synchronous part atomically.
-/

set_option maxHeartbeats 2000000

namespace GhostTap

/-- Configuration default `MAX_STEPS` from `config.ts`. -/
def maxSteps : Nat := 50

/-- Configuration default `AI_RETRY_MAX_ATTEMPTS` from `config.ts`. -/
def aiRetryMaxAttempts : Nat := 3

/-- Loop bound `maxRetries` in `handleUiEvent` (`websocket-gateway.ts`). -/
def maxRetries : Nat := 3

/-- Configuration default `AI_MODEL` from `config.ts`. -/
def aiModelName : String := "kimi-coding/k2p5"

/-- Task status enum of `types.ts` (v3.12; there is no `pending` status). -/
inductive TaskStatus where
  | running
  | paused
  | completed
  | failed
  | cancelled
deriving DecidableEq, Repr

/-- The three terminal statuses. -/
def TaskStatus.isTerminal : TaskStatus → Bool
  | .completed => true
  | .failed => true
  | .cancelled => true
  | _ => false

/-- Non-terminal ("active") statuses: the `['pending','running','paused']`
check of `getUserActiveSessionSync` projected onto the v3.12 enum, which has
no `pending`. -/
def TaskStatus.isActive : TaskStatus → Bool
  | .running => true
  | .paused => true
  | _ => false

/-- The wire string of a status (used for the action name of the final
history record in `endSession`). -/
def TaskStatus.str : TaskStatus → String
  | .running => "running"
  | .paused => "paused"
  | .completed => "completed"
  | .failed => "failed"
  | .cancelled => "cancelled"

/-- `UiStats` of `types.ts` (the `truncated` field is unused by the embedded
operations). -/
structure UiStats where
  original_nodes : Nat
  filtered_nodes : Nat
deriving DecidableEq, Repr

/-- `Element` of `types.ts`.  The layout fields `pos`, `center` and
`actions` carry percentage coordinates consumed only by the prompt formatter
and the device; no embedded operation reads them, so they are omitted.
`type` is renamed `etype` (`type` is unusable as a field name here). -/
structure Element where
  id : Nat
  etype : String
  text : Option String := none
  desc : Option String := none
deriving DecidableEq, Repr

/-- `UiEventMessage` of `types.ts` (screen geometry/keyboard fields feed only
the prompt formatter and are omitted). -/
structure UiEvent where
  timestamp : Nat
  session_id : String
  pkg : String
  activity : String
  elements : List Element
  stats : Option UiStats := none
deriving DecidableEq, Repr

/-- `ActionRecord` of `types.ts`. -/
structure ActionRecord where
  step : Nat
  timestamp : Nat
  action : String
  reason : String
  result : Option String := none
deriving DecidableEq, Repr

/-- `TaskMetrics` of `types.ts` minus the floating-point `cost_usd`. -/
structure TaskMetrics where
  input_tokens : Nat
  output_tokens : Nat
  total_tokens : Nat
  step_count : Nat
  model : String
deriving DecidableEq, Repr

/-- `SessionContext` of `types.ts` (v3.12).  `device_ws` is a non-owning
handle looked up by user id at send time and is not part of the state.
`aiFailureCount` embeds the per-session-id entry of the session manager's
`aiFailureCounts` map (protocol doc §2.2); for live sessions the two agree.
The v3.14 reconnect bookkeeping fields are unused by the verified claims. -/
structure Session where
  session_id : String
  user_id : String
  goal : String
  status : TaskStatus
  callback_url : Option String := none
  created_at : Nat
  updated_at : Nat
  last_ui_event : Option UiEvent := none
  latestUiTimestamp : Nat
  aiCallInFlight : Bool
  aiFailureCount : Nat
  history : List ActionRecord
  metrics : TaskMetrics
  result : Option String := none
deriving DecidableEq, Repr

/-- `AiDecision` of `types.ts` (v3.12).  `thought` is consumed only by logs
and is omitted.  Percent coordinates of `target.center` are carried as an
opaque integer pair (they are floats device-side; nothing verified reads
them). -/
structure AiDecision where
  action : String
  reason : String
  text : Option String := none
  direction : Option String := none
  distance : Option Int := none
  duration_ms : Option Int := none
  package_name : Option String := none
  wait_ms : Option Nat := none
  target : Option (Int × Int) := none
deriving DecidableEq, Repr

/-- `ActionCommandMessage` of `types.ts` (v3.12). -/
structure ActionCommand where
  action : String
  reason : Option String := none
  text : Option String := none
  direction : Option String := none
  distance : Option Int := none
  duration_ms : Option Int := none
  package_name : Option String := none
  wait_ms : Option Nat := none
  target : Option (Int × Int) := none
deriving DecidableEq, Repr

/-- The outbound device messages produced by the embedded handlers:
`action` commands and the `task_end` notification (its status field is the
wire string, `completed` mapped to `success` as in `endTask`). -/
inductive ServerMsg where
  | action (cmd : ActionCommand)
  | taskEnd (session_id : String) (status : String) (result : String)
deriving DecidableEq, Repr

/-- One outbound `task_completed` webhook delivery (the fields of
`TaskCompletedCallback` that the verified claims inspect). -/
structure Callback where
  url : String
  ctype : String
  status : String
  result : String
  goal : String
  steps : Nat
deriving DecidableEq, Repr

/-- The in-memory `activeSessions` registry of the session manager. -/
abbrev Store := List Session

/-! ### String helpers: TS truthiness and `String.includes` -/

/-- TS `a || b` on an optional string: `b` when `a` is undefined or empty. -/
def strOr (a : Option String) (b : String) : String :=
  match a with
  | some s => if s.isEmpty then b else s
  | none => b

/-- Whether `needle` occurs at the head of `hay`. -/
def charsAgree : List Char → List Char → Bool
  | [], _ => true
  | _ :: _, [] => false
  | c :: cs, d :: ds => c == d && charsAgree cs ds

/-- Whether `needle` occurs anywhere in `hay` (naive scan). -/
def charsFind (needle : List Char) : List Char → Bool
  | [] => needle.isEmpty
  | d :: ds => charsAgree needle (d :: ds) || charsFind needle ds

/-- TS `hay.includes(needle)`. -/
def strIncludes (hay needle : String) : Bool :=
  charsFind needle.data hay.data

/-- ASCII lowercasing of one character (what `toLowerCase` does on every
character appearing in the embedded keyword lists and inputs). -/
def charToLower (c : Char) : Char :=
  if 65 ≤ c.toNat ∧ c.toNat ≤ 90 then Char.ofNat (c.toNat + 32) else c

/-- TS `s.toLowerCase()`, as a character list. -/
def lowerData (s : String) : List Char :=
  s.data.map charToLower

/-! ### `formatter.ts` (v3.12): SafetyGate -/

/-- The v3.12 first-layer `SENSITIVE_KEYWORDS` list of `formatter.ts`. -/
def SENSITIVE_KEYWORDS : List String :=
  ["支付", "付款", "确认支付", "立即支付",
   "密码", "安全验证", "指纹验证",
   "确认付款", "立即付款"]

/-- The `LOADING_KEYWORDS` list of `formatter.ts`. -/
def LOADING_KEYWORDS : List String :=
  ["加载中", "正在加载", "loading", "请稍候", "请稍等",
   "处理中", "正在处理", "processing", "请等待", "please wait",
   "提交中", "saving", "上传中", "uploading", "下载中", "downloading"]

/-- TS <code>element.text ? \` (element.text)\` : ''</code> of the sensitive
reason. -/
def optParen : Option String → String
  | some s => if s.isEmpty then "" else " (" ++ s ++ ")"
  | none => ""

/-- One loop body of `detectSensitiveOperations`: first-layer keyword scan,
then the currency-symbol-plus-payment-context rule, on a single element. -/
def sensitiveElemCheck (e : Element) : Option String :=
  let text := lowerData (strOr e.text (strOr e.desc ""))
  if text.isEmpty then none
  else
    match SENSITIVE_KEYWORDS.find? (fun kw => charsFind (lowerData kw) text) with
    | some kw => some ("检测到敏感操作: " ++ kw ++ optParen e.text)
    | none =>
      let hasCurrencySymbol :=
        charsFind "¥".data text || charsFind "元".data text ||
        charsFind "￥".data text
      let hasPaymentContext :=
        charsFind "确认".data text || charsFind "支付".data text ||
        charsFind "付款".data text || charsFind "购买".data text
      if hasCurrencySymbol && hasPaymentContext then
        some ("检测到支付金额: " ++ (match e.text with
          | some t => t
          | none => "undefined"))
      else none

/-- `UiFormatter.detectSensitiveOperations`: `some reason` iff sensitive
(the `{isSensitive, reason}` record collapsed to an option). -/
def detectSensitiveOperations (ev : UiEvent) : Option String :=
  ev.elements.findSome? sensitiveElemCheck

/-- One loop body of `isLoadingState`'s keyword scan (it reads `text` only,
not `desc`). -/
def loadingElemCheck (e : Element) : Bool :=
  let text := lowerData (strOr e.text "")
  !text.isEmpty && LOADING_KEYWORDS.any (fun kw => charsFind (lowerData kw) text)

/-- `UiFormatter.isLoadingState` (the match flag; the human-readable reason
feeds only logs and the decision `thought` and is dropped). -/
def isLoadingState (ev : UiEvent) : Bool :=
  if ev.elements.any loadingElemCheck then true
  else
    match ev.stats with
    | some st => decide (st.original_nodes > 10) && decide (st.filtered_nodes < 3)
    | none => decide (ev.elements.length < 3)

/-! ### `session-manager.ts`: store operations

The pre-v3.12 `session-manager.ts` ships in the sources; the v3.12 revision
(whose `SessionContext` shape and extra methods are declared in `types.ts`
and called by the v3.12 gateway) does not.  Operations below follow the
shipped implementation lifted to the v3.12 `SessionContext`; the ones that
exist only in the missing revision carry a `Modelled from the spec:` note. -/

/-- Apply `f` to the session(s) stored under `sid` (the `Map.get` +
in-place mutation pattern of the manager). -/
def modSession (st : Store) (sid : String) (f : Session → Session) : Store :=
  st.map (fun s => if s.session_id = sid then f s else s)

/-- `SessionManager.getSessionSync`: cache lookup. -/
def getSessionSync (st : Store) (sid : String) : Option Session :=
  st.find? (fun s => s.session_id = sid)

/-- `SessionManager.getUserActiveSessionSync`: first session of the user in
a non-terminal status. -/
def getUserActiveSessionSync (st : Store) (uid : String) : Option Session :=
  st.find? (fun s => s.user_id = uid && s.status.isActive)

/-- The per-session mutation of `updateUiEvent`. -/
def uiEventUpd (ev : UiEvent) (now : Nat) (s : Session) : Session :=
  { s with last_ui_event := some ev, latestUiTimestamp := ev.timestamp,
           updated_at := now }

/-- `SessionManager.updateUiEvent`.  The shipped revision records
`last_ui_event` and `updated_at`; maintaining `latestUiTimestamp` is
Modelled from the spec: the data model's "latest known snapshot timestamp"
field (declared in `SessionContext`, read by the v3.12 gateway loop; the
v3.12 manager that writes it is absent from the sources). -/
def updateUiEvent (st : Store) (sid : String) (ev : UiEvent) (now : Nat) : Store :=
  modSession st sid (uiEventUpd ev now)

/-- The per-session mutation of `addActionRecord`. -/
def actionRecordUpd (action reason : String) (res : Option String) (now : Nat)
    (s : Session) : Session :=
  let record : ActionRecord :=
    { step := s.history.length + 1, timestamp := now, action := action,
      reason := reason, result := res }
  { s with history := s.history ++ [record],
           metrics := { s.metrics with step_count := s.history.length + 1 },
           updated_at := now }

/-- `SessionManager.addActionRecord`: append a record with step
`history.length + 1`, then set `metrics.step_count := history.length`. -/
def addActionRecord (st : Store) (sid : String) (action reason : String)
    (res : Option String) (now : Nat) : Store :=
  modSession st sid (actionRecordUpd action reason res now)

/-- The per-session mutation of `updateMetrics`. -/
def metricsUpd (inputTokens outputTokens : Nat) (s : Session) : Session :=
  let im := s.metrics.input_tokens + inputTokens
  let om := s.metrics.output_tokens + outputTokens
  let m := { s.metrics with
             input_tokens := im, output_tokens := om, total_tokens := im + om }
  { s with metrics := m }

/-- `SessionManager.updateMetrics` (token accumulation; the floating-point
`cost_usd` recomputation is not embedded). -/
def updateMetrics (st : Store) (sid : String) (inputTokens outputTokens : Nat) : Store :=
  modSession st sid (metricsUpd inputTokens outputTokens)

/-- The per-session mutation of `updateSessionStatus`. -/
def statusUpd (status : TaskStatus) (now : Nat) (s : Session) : Session :=
  { s with status := status, updated_at := now }

/-- `SessionManager.updateSessionStatus` (the optional `deviceWs` rebinding
argument is connection state, not session state, and is dropped). -/
def updateSessionStatus (st : Store) (sid : String) (status : TaskStatus)
    (now : Nat) : Store :=
  modSession st sid (statusUpd status now)

/-- The per-session mutation of `setAiCallInFlight`. -/
def flagUpd (v : Bool) (s : Session) : Session :=
  { s with aiCallInFlight := v }

/-- `SessionManager.setAiCallInFlight`.  Modelled from the spec: the boolean
"decision in flight" flag of the data model (declared in `SessionContext`,
set/cleared by the v3.12 gateway; the manager method itself is absent from
the sources). -/
def setAiCallInFlight (st : Store) (sid : String) (v : Bool) : Store :=
  modSession st sid (flagUpd v)

/-- The per-session mutation of `recordAiFailure`. -/
def failCountUpd (s : Session) : Session :=
  { s with aiFailureCount := s.aiFailureCount + 1 }

/-- `SessionManager.recordAiFailure`, from the verbatim snippet in
`docs/protocol.md` §2.2: increment the per-session failure count and report
whether it reached 3. -/
def recordAiFailure (st : Store) (sid : String) : Store × Bool :=
  match getSessionSync st sid with
  | none => (st, false)
  | some s => (modSession st sid failCountUpd, 3 ≤ s.aiFailureCount + 1)

/-- The per-session mutation of `resetAiFailureCount`. -/
def failResetUpd (s : Session) : Session :=
  { s with aiFailureCount := 0 }

/-- `SessionManager.resetAiFailureCount`, from `docs/protocol.md` §2.2
("reset the failure count on success"). -/
def resetAiFailureCount (st : Store) (sid : String) : Store :=
  modSession st sid failResetUpd

/-- `SessionManager.endSession`: set the terminal status, append a final
record when a non-empty result string is given (without touching
`metrics.step_count`), remove the session from the active registry, and
return the ended session. -/
def endSession (st : Store) (sid : String) (status : TaskStatus)
    (result : Option String) (now : Nat) : Store × Option Session :=
  match getSessionSync st sid with
  | none => (st, none)
  | some s =>
    let s1 := { s with status := status, updated_at := now }
    let s2 :=
      match result with
      | some r =>
        if r.isEmpty then s1
        else
          { s1 with history := s1.history ++
              [{ step := s1.history.length + 1, timestamp := now,
                 action := status.str, reason := r, result := some r }] }
      | none => s1
    (st.filter (fun t => !(t.session_id = sid : Bool)), some s2)

/-- `SessionManager.createSession`.  Modelled from the spec: "Initial state
on creation is `Running`" — the v3.12 manager is absent from the sources
(the shipped pre-v3.12 one uses a `pending` status that does not exist in
the v3.12 `TaskStatus` enum; `http-api.ts` v3.12 documents creation as
"状态直接为 running").  Remaining fields follow the shipped constructor,
extended with the zero-initialised v3.12 fields; the generated random id is
a parameter. -/
def createSession (st : Store) (uid goal : String) (cb : Option String)
    (newSid : String) (now : Nat) : Store × Session :=
  let s : Session :=
    { session_id := newSid, user_id := uid, goal := goal, status := .running,
      callback_url := cb, created_at := now, updated_at := now,
      last_ui_event := none, latestUiTimestamp := 0, aiCallInFlight := false,
      aiFailureCount := 0, history := [],
      metrics := { input_tokens := 0, output_tokens := 0, total_tokens := 0,
                   step_count := 0, model := aiModelName },
      result := none }
  (st ++ [s], s)

/-! ### `ai-core.ts` (v3.12/v3.13 revision): the decision provider -/

/-- Outcome of one raw `callLlm` attempt, the boundary of the external LLM:
a parsed decision with actual token usage, or an error classified by
`isRetryableError` (network / 429 / 5xx-class message patterns vs
auth/parse errors). -/
inductive LlmAttempt where
  | ok (d : AiDecision) (inputTokens outputTokens : Nat)
  | err (retryable : Bool) (msg : String)

/-- The `{decision, inputTokens, outputTokens}` result of a provider call. -/
structure LlmResult where
  decision : AiDecision
  inputTokens : Nat
  outputTokens : Nat
deriving DecidableEq, Repr

/-- Recursion of `AiCore.callLlmWithRetry`: try attempt `i`; rethrow a
non-retryable error at once; keep retrying retryable ones (after backoff
sleep, not modelled) until the attempt cap, then throw the last error. -/
def callLlmWithRetryGo (attempt : Nat → LlmAttempt) :
    Nat → Nat → Option String → Except String LlmResult
  | _, 0, lastErr =>
    .error (match lastErr with
      | some m => m
      | none => "LLM API call failed after all retries")
  | i, fuel + 1, _ =>
    match attempt i with
    | .ok d it ot => .ok { decision := d, inputTokens := it, outputTokens := ot }
    | .err retryable m =>
      if retryable then callLlmWithRetryGo attempt (i + 1) fuel (some m)
      else .error m

/-- `AiCore.callLlmWithRetry` with `maxAttempts` attempts, the provider-call
wrapper; the environment's behaviour on attempt `i` is `attempt i`. -/
def callLlmWithRetry (attempt : Nat → LlmAttempt) (maxAttempts : Nat) :
    Except String LlmResult :=
  callLlmWithRetryGo attempt 0 maxAttempts none

/-- The `isFirstLayer` test inside `decide`'s second-layer sensitive check. -/
def isFirstLayerReason (r : String) : Bool :=
  strIncludes r "检测到敏感操作:" || strIncludes r "检测到支付金额:"

/-- The second-layer sensitive short-circuit of `decide`: a sensitive match
whose reason is not already a first-layer one.  (Every reason produced by
`detectSensitiveOperations` is first-layer, making this `none` — proved
below.) -/
def secondLayerSensitive (ev : UiEvent) : Option String :=
  match detectSensitiveOperations ev with
  | some r => if isFirstLayerReason r then none else some r
  | none => none

/-- The auto-wait decision `decide` returns for a loading page. -/
def waitLoadingDecision : AiDecision :=
  { action := "wait", reason := "等待页面加载完成", wait_ms := some 1000 }

/-- The safe default decision of `decide`'s catch branch. -/
def waitFallbackDecision : AiDecision :=
  { action := "wait", reason := "AI服务暂时不可用，等待重试", wait_ms := some 3000 }

/-- The pause decision of `decide`'s second-layer sensitive branch. -/
def pauseDecision (r : String) : AiDecision :=
  { action := "pause", reason := r }

/-- The `try` block of `AiCore.decide`: loading auto-wait, second-layer
sensitive pause, else the retried LLM call (whose exhaustion/parse errors
propagate out of the block). -/
def decideTry (ev : UiEvent) (attempt : Nat → LlmAttempt) : Except String LlmResult :=
  if isLoadingState ev then
    .ok { decision := waitLoadingDecision, inputTokens := 0, outputTokens := 0 }
  else
    match secondLayerSensitive ev with
    | some r =>
      .ok { decision := pauseDecision r, inputTokens := 0, outputTokens := 0 }
    | none => callLlmWithRetry attempt aiRetryMaxAttempts

/-- `AiCore.decide`: the `try` block with its catch-all, which converts any
error into the safe default wait decision with zero token counts.  The
session argument feeds only the prompt (and the failure-count reset, kept
separate in `decideLlmSucceeded`), so it is not a parameter here. -/
def AiCore.decide (ev : UiEvent) (attempt : Nat → LlmAttempt) :
    Except String LlmResult :=
  match decideTry ev attempt with
  | .ok r => .ok r
  | .error _ =>
    .ok { decision := waitFallbackDecision, inputTokens := 0, outputTokens := 0 }

/-- Whether this `decide` call reached a successful LLM response — the case
in which `decide` invokes `sessionManager.resetAiFailureCount`. -/
def decideLlmSucceeded (ev : UiEvent) (attempt : Nat → LlmAttempt) : Bool :=
  !isLoadingState ev && (secondLayerSensitive ev).isNone &&
    (match callLlmWithRetry attempt aiRetryMaxAttempts with
     | .ok _ => true
     | .error _ => false)

/-- `AiCore.decisionToCommand` (v3.12): copy the action, always the reason,
and each optional parameter (string parameters under TS truthiness, numeric
ones under an `undefined` check). -/
def decisionToCommand (d : AiDecision) : ActionCommand :=
  { action := d.action
    reason := some d.reason
    target := d.target
    text := match d.text with
      | some t => if t.isEmpty then none else some t
      | none => none
    direction := match d.direction with
      | some v => if v.isEmpty then none else some v
      | none => none
    distance := d.distance
    duration_ms := d.duration_ms
    package_name := match d.package_name with
      | some p => if p.isEmpty then none else some p
      | none => none
    wait_ms := d.wait_ms }

/-! ### `websocket-gateway.ts` (v3.12 revision): handlers -/

/-- The observable result of one handler invocation: the updated session
registry, the device messages sent, the webhook callbacks delivered, and how
many times `aiCore.decide` was invoked. -/
structure HandlerOut where
  store : Store
  sent : List ServerMsg
  cbs : List Callback
  providerCalls : Nat
deriving Repr

/-- `WebSocketGateway.endTask`: end the session in the manager, send
`task_end` to the device (`completed` shown as `success`), and deliver the
`task_completed` webhook when a callback target is configured (its absence
is only logged). -/
def endTask (st : Store) (sid : String) (status : TaskStatus) (result : String)
    (now : Nat) : Store × List ServerMsg × List Callback :=
  let e := endSession st sid status (some result) now
  let out : List ServerMsg × List Callback :=
    match e.2 with
    | none => ([], [])
    | some ended =>
      let wire := if status = .completed then "success" else status.str
      let cbs :=
        match ended.callback_url with
        | some url =>
          [{ url := url, ctype := "task_completed", status := status.str,
             result := result, goal := ended.goal,
             steps := ended.metrics.step_count }]
        | none => []
      ([ServerMsg.taskEnd sid wire result], cbs)
  (e.1, out.1, out.2)

/-- The pause command of the first-layer sensitive short-circuit. -/
def pauseCmd (r : String) : ActionCommand :=
  { action := "pause", reason := some r }

/-- The wait command of the below-threshold branch of the gateway's catch. -/
def waitRetryCmd : ActionCommand :=
  { action := "wait", reason := some "AI决策出错，等待重试", wait_ms := some 2000 }

/-- `WebSocketGateway.handlePause` (user pressed the floating-window pause
button): a running session is paused and a `pause` record appended. -/
def handlePause (st : Store) (sid : String) (now : Nat) : HandlerOut :=
  match getSessionSync st sid with
  | none => { store := st, sent := [], cbs := [], providerCalls := 0 }
  | some s =>
    if s.status = .running then
      let st1 := updateSessionStatus st sid .paused now
      let st2 := addActionRecord st1 sid "pause" "用户点击暂停按钮" none now
      { store := st2, sent := [], cbs := [], providerCalls := 0 }
    else { store := st, sent := [], cbs := [], providerCalls := 0 }

/-- `WebSocketGateway.handleResume` (v3.12, user pressed the continue
button): a paused session is set running and a `resume` record appended; no
decision is computed and nothing is sent — the orchestrator waits for the
device to report the next UI snapshot. -/
def handleResume (st : Store) (sid : String) (now : Nat) : HandlerOut :=
  match getSessionSync st sid with
  | none => { store := st, sent := [], cbs := [], providerCalls := 0 }
  | some s =>
    if s.status = .paused then
      let st1 := updateSessionStatus st sid .running now
      let st2 := addActionRecord st1 sid "resume" "用户点击继续按钮" none now
      { store := st2, sent := [], cbs := [], providerCalls := 0 }
    else { store := st, sent := [], cbs := [], providerCalls := 0 }

/-- `WebSocketGateway.handleStop` (v3.12): end the session as cancelled. -/
def handleStop (st : Store) (sid : String) (now : Nat) : HandlerOut :=
  match getSessionSync st sid with
  | none => { store := st, sent := [], cbs := [], providerCalls := 0 }
  | some _ =>
    let p := endTask st sid .cancelled "用户点击结束按钮" now
    { store := p.1, sent := p.2.1, cbs := p.2.2, providerCalls := 0 }

/-- The synchronous part of a concurrent `handleUiEvent` invocation (up to
its first await): update the session's UI event, run the status / max-steps
/ SafetyGate / mutex preconditions.  When all preconditions pass, the
invocation would set the in-flight flag and suspend on its own provider
call; only the flag write is visible inside another handler's await window,
so the model stops there. -/
def uiEventGuardPhase (st : Store) (ev : UiEvent) (now : Nat) : HandlerOut :=
  let st1 := updateUiEvent st ev.session_id ev now
  match getSessionSync st1 ev.session_id with
  | none => { store := st1, sent := [], cbs := [], providerCalls := 0 }
  | some ses =>
    if ses.status ≠ .running then
      { store := st1, sent := [], cbs := [], providerCalls := 0 }
    else if maxSteps ≤ ses.history.length then
      let p := endTask st1 ev.session_id .failed "超过最大步骤数限制" now
      { store := p.1, sent := p.2.1, cbs := p.2.2, providerCalls := 0 }
    else
      match detectSensitiveOperations ev with
      | some r =>
        let st2 := updateSessionStatus st1 ev.session_id .paused now
        let st3 := addActionRecord st2 ev.session_id "pause" r none now
        { store := st3, sent := [ServerMsg.action (pauseCmd r)], cbs := [],
          providerCalls := 0 }
      | none =>
        if ses.aiCallInFlight then
          { store := st1, sent := [], cbs := [], providerCalls := 0 }
        else
          { store := setAiCallInFlight st1 ev.session_id true, sent := [],
            cbs := [], providerCalls := 0 }

/-- An event another connection/handler delivers while a `handleUiEvent`
invocation awaits its provider call. -/
inductive Interleaved where
  | snapshot (ev : UiEvent)
  | pauseReq (sid : String)
  | resumeReq (sid : String)
  | stopReq (sid : String)

/-- Run one interleaved event (each runs atomically between awaits of the
primary handler). -/
def applyEvt (st : Store) (now : Nat) : Interleaved → HandlerOut
  | .snapshot ev => uiEventGuardPhase st ev now
  | .pauseReq sid => handlePause st sid now
  | .resumeReq sid => handleResume st sid now
  | .stopReq sid => handleStop st sid now

/-- Run a list of interleaved events in order, accumulating their outputs. -/
def applyEvts (st : Store) (evts : List Interleaved) (now : Nat) : HandlerOut :=
  match evts with
  | [] => { store := st, sent := [], cbs := [], providerCalls := 0 }
  | e :: rest =>
    let o1 := applyEvt st now e
    let o2 := applyEvts o1.store rest now
    { store := o2.store, sent := o1.sent ++ o2.sent, cbs := o1.cbs ++ o2.cbs,
      providerCalls := o1.providerCalls + o2.providerCalls }

/-- How the stale-retry loop of `handleUiEvent` ended: the retry cap was
exceeded (silent give-up), the `decide` call threw (caught by the gateway's
catch branch), or a decision was accepted. -/
inductive LoopEnd where
  | gaveUp
  | caught (msg : String)
  | accepted (r : LlmResult)

/-- Result of the stale-retry loop. -/
structure LoopOut where
  store : Store
  sent : List ServerMsg
  cbs : List Callback
  providerCalls : Nat
  fin : LoopEnd

/-- The `while (retryCount < maxRetries)` loop of `handleUiEvent` (v3.12).
Faithful to the source ordering: the session's latest-known snapshot
timestamp is read (with JS `||`-falsiness on 0) *before* the `decide` call
is awaited; the events of `env i` run during that await; after the call the
pre-read value is compared with the basis timestamp `cur`, accepting on
equality and retrying otherwise.  `fuel` is `maxRetries - retryCount`;
`attempt i` is the LLM behaviour during iteration `i`'s `decide`. -/
def uiLoop (msg : UiEvent) (cur : Nat) (env : Nat → List Interleaved)
    (attempt : Nat → Nat → LlmAttempt) (now : Nat) :
    Nat → Nat → Store → LoopOut
  | _, 0, st =>
    { store := st, sent := [], cbs := [], providerCalls := 0, fin := .gaveUp }
  | i, fuel + 1, st =>
    let latest :=
      match getSessionSync st msg.session_id with
      | some s => if s.latestUiTimestamp = 0 then cur else s.latestUiTimestamp
      | none => cur
    let envOut := applyEvts st (env i) now
    match AiCore.decide msg (attempt i) with
    | .error m =>
      { store := envOut.store, sent := envOut.sent, cbs := envOut.cbs,
        providerCalls := envOut.providerCalls + 1, fin := .caught m }
    | .ok r =>
      let st2 :=
        if decideLlmSucceeded msg (attempt i) then
          resetAiFailureCount envOut.store msg.session_id
        else envOut.store
      if latest = cur then
        { store := st2, sent := envOut.sent, cbs := envOut.cbs,
          providerCalls := envOut.providerCalls + 1, fin := .accepted r }
      else
        let rest := uiLoop msg cur env attempt now (i + 1) fuel st2
        { store := rest.store, sent := envOut.sent ++ rest.sent,
          cbs := envOut.cbs ++ rest.cbs,
          providerCalls := envOut.providerCalls + 1 + rest.providerCalls,
          fin := rest.fin }

/-- The accepted-decision continuation of `handleUiEvent`: append the
record, accumulate non-zero token usage, end on `done`/`fail`, otherwise
re-check that the session is still running before sending the command (and
pause after a `pause` command). -/
def acceptedPhase (st : Store) (sid : String) (r : LlmResult) (now : Nat) :
    Store × List ServerMsg × List Callback :=
  let st1 := addActionRecord st sid r.decision.action r.decision.reason none now
  let st2 :=
    if 0 < r.inputTokens || 0 < r.outputTokens then
      updateMetrics st1 sid r.inputTokens r.outputTokens
    else st1
  if r.decision.action = "done" then
    endTask st2 sid .completed r.decision.reason now
  else if r.decision.action = "fail" then
    endTask st2 sid .failed r.decision.reason now
  else
    let cmd := decisionToCommand r.decision
    match getSessionSync st2 sid with
    | some cs =>
      if cs.status = .running then
        let st3 :=
          if cmd.action = "pause" then updateSessionStatus st2 sid .paused now
          else st2
        (st3, [ServerMsg.action cmd], [])
      else (st2, [], [])
    | none => (st2, [], [])

/-- The catch branch of `handleUiEvent` (v3.13): record the provider
failure; on the third consecutive one pause the session, send a pause
command and notify the callback target; below the threshold send a short
wait command. -/
def catchPhase (st : Store) (sid : String) (now : Nat) :
    Store × List ServerMsg × List Callback :=
  let p := recordAiFailure st sid
  let st1 := p.1
  let shouldPause := p.2
  if shouldPause then
    let st2 := updateSessionStatus st1 sid .paused now
    let ms := [ServerMsg.action
      { action := "pause",
        reason := some "AI服务连续不可用，任务已暂停，请检查AI配置后点击继续" }]
    let cbs :=
      match getSessionSync st2 sid with
      | some s =>
        match s.callback_url with
        | some url =>
          [{ url := url, ctype := "task_completed", status := "paused",
             result := "AI服务暂时不可用，任务已暂停", goal := s.goal,
             steps := s.history.length }]
        | none => []
      | none => []
    (st2, ms, cbs)
  else (st1, [ServerMsg.action waitRetryCmd], [])

/-- `WebSocketGateway.handleUiEvent` (v3.12 revision): record the snapshot,
require a known running session, enforce the step cap, run the SafetyGate
hard check, take the per-session in-flight mutex, run the stale-retry
decision loop, dispatch its outcome, and always release the mutex
(`finally`). -/
def handleUiEvent (st : Store) (msg : UiEvent) (now : Nat)
    (env : Nat → List Interleaved) (attempt : Nat → Nat → LlmAttempt) :
    HandlerOut :=
  let st1 := updateUiEvent st msg.session_id msg now
  match getSessionSync st1 msg.session_id with
  | none => { store := st1, sent := [], cbs := [], providerCalls := 0 }
  | some ses =>
    if ses.status ≠ .running then
      { store := st1, sent := [], cbs := [], providerCalls := 0 }
    else if maxSteps ≤ ses.history.length then
      let p := endTask st1 msg.session_id .failed "超过最大步骤数限制" now
      { store := p.1, sent := p.2.1, cbs := p.2.2, providerCalls := 0 }
    else
      match detectSensitiveOperations msg with
      | some r =>
        let st2 := updateSessionStatus st1 msg.session_id .paused now
        let st3 := addActionRecord st2 msg.session_id "pause" r none now
        { store := st3, sent := [ServerMsg.action (pauseCmd r)], cbs := [],
          providerCalls := 0 }
      | none =>
        if ses.aiCallInFlight then
          { store := st1, sent := [], cbs := [], providerCalls := 0 }
        else
          let cur := msg.timestamp
          let st2 := setAiCallInFlight st1 msg.session_id true
          let lo := uiLoop msg cur env attempt now 0 maxRetries st2
          let post :=
            match lo.fin with
            | .gaveUp => (lo.store, ([] : List ServerMsg), ([] : List Callback))
            | .caught _ => catchPhase lo.store msg.session_id now
            | .accepted r => acceptedPhase lo.store msg.session_id r now
          { store := setAiCallInFlight post.1 msg.session_id false,
            sent := lo.sent ++ post.2.1, cbs := lo.cbs ++ post.2.2,
            providerCalls := lo.providerCalls }

/-! ### `http-api.ts`: task creation -/

/-- `HttpApiServer.handleCreateTask` (v3.12): reject missing fields; cancel
the user's existing active session ("新任务覆盖") before creating the new
one.  The generated session id is a parameter; the `device_connected`
branching only selects the response message and the `task_start` push and is
not session state. -/
def handleCreateTask (st : Store) (uid goal : String) (cb : Option String)
    (newSid : String) (now : Nat) : Except String (Store × Session) :=
  if uid = "" ∨ goal = "" then .error "MISSING_FIELDS"
  else
    let st1 :=
      match getUserActiveSessionSync st uid with
      | some old => (endSession st old.session_id .cancelled (some "新任务覆盖") now).1
      | none => st
    .ok (createSession st1 uid goal cb newSid now)

/-- Number of sessions of user `u` in a non-terminal status. -/
def activeCount (st : Store) (u : String) : Nat :=
  st.countP (fun s => s.user_id = u && s.status.isActive)

/-- Sessions of the given id all have a cleared in-flight flag. -/
def flagClear (st : Store) (sid : String) : Prop :=
  ∀ t ∈ st, t.session_id = sid → t.aiCallInFlight = false

/-! ### Concrete scenario data (used by the evaluation and witness theorems) -/

/-- Three neutral interactive elements (no sensitive or loading keywords). -/
def sampleElems : List Element :=
  [{ id := 1, etype := "text", text := some "首页" },
   { id := 2, etype := "text", text := some "搜索" },
   { id := 3, etype := "btn", text := some "返回" }]

/-- A running session whose decision flag is currently set (a provider call
is outstanding). -/
def busySession : Session :=
  { session_id := "s1", user_id := "u1", goal := "签到", status := .running,
    callback_url := some "http://cb", created_at := 1, updated_at := 1,
    latestUiTimestamp := 100, aiCallInFlight := true, aiFailureCount := 0,
    history := [],
    metrics := { input_tokens := 0, output_tokens := 0, total_tokens := 0,
                 step_count := 0, model := aiModelName } }

/-- A freshly created running session. -/
def baseSession : Session :=
  { session_id := "s1", user_id := "u1", goal := "签到", status := .running,
    callback_url := some "http://cb", created_at := 1, updated_at := 1,
    latestUiTimestamp := 0, aiCallInFlight := false, aiFailureCount := 0,
    history := [],
    metrics := { input_tokens := 0, output_tokens := 0, total_tokens := 0,
                 step_count := 0, model := aiModelName } }

/-- Snapshot at device time 100 for session `s1`. -/
def uiMsg1 : UiEvent :=
  { timestamp := 100, session_id := "s1", pkg := "app", activity := "Main",
    elements := sampleElems }

/-- A strictly newer snapshot (device time 200) for session `s1`. -/
def uiMsg2 : UiEvent :=
  { timestamp := 200, session_id := "s1", pkg := "app", activity := "Main",
    elements := sampleElems }

/-- A third snapshot (device time 300) for session `s1`. -/
def uiMsg3 : UiEvent :=
  { timestamp := 300, session_id := "s1", pkg := "app", activity := "Main",
    elements := sampleElems }

/-- Snapshot whose element text `确认支付¥99.00` matches the SafetyGate. -/
def sensitiveMsg : UiEvent :=
  { timestamp := 100, session_id := "s1", pkg := "app", activity := "Pay",
    elements := [{ id := 1, etype := "btn", text := some "确认支付¥99.00" }] }

/-- No interleaved events at any await. -/
def envNone : Nat → List Interleaved := fun _ => []

/-- `uiMsg2` is delivered while the decision for `uiMsg1` is in flight. -/
def envSecondSnapshot : Nat → List Interleaved :=
  fun i => if i = 0 then [.snapshot uiMsg2] else []

/-- The decision the provider produces in the accepted-decision scenarios. -/
def clickDecision : AiDecision :=
  { action := "click", reason := "点击搜索", target := some (50, 30) }

/-- LLM behaviour: every attempt of every decide call succeeds with
`clickDecision` and usage 10/5. -/
def llmClickAttempt : Nat → Nat → LlmAttempt := fun _ _ => .ok clickDecision 10 5

/-- LLM behaviour: every attempt fails with a retryable network error, so
every provider call exhausts its retries. -/
def llmFailAttempt : Nat → Nat → LlmAttempt := fun _ _ => .err true "network error"

/-- A 50-step history (at the `maxSteps` cap). -/
def longHistory : List ActionRecord :=
  (List.range 50).map
    (fun i => { step := i + 1, timestamp := 1, action := "click", reason := "r" })

/-- `baseSession` after 50 recorded steps. -/
def fullSession : Session :=
  { baseSession with history := longHistory,
                     metrics := { baseSession.metrics with step_count := 50 } }

/-- `baseSession` after a user pause. -/
def pausedSession : Session :=
  { baseSession with status := .paused }

/-- First failing cycle of the consecutive-provider-failure scenario. -/
def failRun1 : HandlerOut := handleUiEvent [baseSession] uiMsg1 300 envNone llmFailAttempt

/-- Second failing cycle. -/
def failRun2 : HandlerOut := handleUiEvent failRun1.store uiMsg2 400 envNone llmFailAttempt

/-- Third failing cycle. -/
def failRun3 : HandlerOut := handleUiEvent failRun2.store uiMsg3 500 envNone llmFailAttempt

/-! ## Supporting lemmas -/

theorem getSessionSync_modSession (st : Store) (sid : String) (f : Session → Session)
    (hf : ∀ s, (f s).session_id = s.session_id) :
    getSessionSync (modSession st sid f) sid = (getSessionSync st sid).map f := by
  induction st with
  | nil => rfl
  | cons a t ih =>
    by_cases h : a.session_id = sid
    · simp [modSession, getSessionSync, List.find?_cons, h, hf a]
    · simp only [modSession, List.map_cons, getSessionSync, List.find?_cons] at ih ⊢
      simp [h, ih, modSession]

theorem getSessionSync_filter_ne (st : Store) (sid : String) :
    getSessionSync (st.filter (fun t => !(t.session_id = sid : Bool))) sid = none := by
  induction st with
  | nil => rfl
  | cons a t ih =>
    by_cases h : a.session_id = sid
    · simpa [List.filter_cons, h] using ih
    · simp only [List.filter_cons, h]
      simp [getSessionSync, List.find?_cons, h] at ih ⊢

theorem flagClear_modSession (st : Store) (sid sid' : String) (f : Session → Session)
    (hf : ∀ s, (f s).session_id = s.session_id)
    (hfl : ∀ s, (f s).aiCallInFlight = s.aiCallInFlight)
    (h : flagClear st sid) : flagClear (modSession st sid' f) sid := by
  intro t ht hts
  rcases List.mem_map.1 ht with ⟨u, hu, hut⟩
  by_cases hcase : u.session_id = sid'
  · rw [if_pos hcase] at hut
    subst hut
    rw [hfl u]
    exact h u hu (by rw [hf u] at hts; exact hts)
  · rw [if_neg hcase] at hut
    subst hut
    exact h u hu hts

theorem flagClear_filter (st : Store) (sid : String) (p : Session → Bool)
    (h : flagClear st sid) : flagClear (st.filter p) sid := by
  intro t ht hts
  exact h t (List.mem_of_mem_filter ht) hts

theorem flagClear_setAiCallInFlight_false (st : Store) (sid : String) :
    flagClear (setAiCallInFlight st sid false) sid := by
  intro t ht hts
  rcases List.mem_map.1 ht with ⟨u, _, hut⟩
  by_cases hcase : u.session_id = sid
  · rw [if_pos hcase] at hut
    subst hut
    rfl
  · rw [if_neg hcase] at hut
    subst hut
    exact absurd hts hcase

theorem getSessionSync_updateUiEvent (st : Store) (sid : String) (ev : UiEvent) (now : Nat) :
    getSessionSync (updateUiEvent st sid ev now) sid =
      (getSessionSync st sid).map (uiEventUpd ev now) :=
  getSessionSync_modSession st sid (uiEventUpd ev now) (fun _ => rfl)

theorem getSessionSync_addActionRecord (st : Store) (sid : String)
    (action reason : String) (res : Option String) (now : Nat) :
    getSessionSync (addActionRecord st sid action reason res now) sid =
      (getSessionSync st sid).map (actionRecordUpd action reason res now) :=
  getSessionSync_modSession st sid (actionRecordUpd action reason res now) (fun _ => rfl)

theorem getSessionSync_updateSessionStatus (st : Store) (sid : String)
    (status : TaskStatus) (now : Nat) :
    getSessionSync (updateSessionStatus st sid status now) sid =
      (getSessionSync st sid).map (statusUpd status now) :=
  getSessionSync_modSession st sid (statusUpd status now) (fun _ => rfl)

theorem getSessionSync_setAiCallInFlight (st : Store) (sid : String) (v : Bool) :
    getSessionSync (setAiCallInFlight st sid v) sid =
      (getSessionSync st sid).map (flagUpd v) :=
  getSessionSync_modSession st sid (flagUpd v) (fun _ => rfl)

theorem getSessionSync_updateMetrics (st : Store) (sid : String) (it ot : Nat) :
    getSessionSync (updateMetrics st sid it ot) sid =
      (getSessionSync st sid).map (metricsUpd it ot) :=
  getSessionSync_modSession st sid (metricsUpd it ot) (fun _ => rfl)

theorem getSessionSync_resetAiFailureCount (st : Store) (sid : String) :
    getSessionSync (resetAiFailureCount st sid) sid =
      (getSessionSync st sid).map failResetUpd :=
  getSessionSync_modSession st sid failResetUpd (fun _ => rfl)

/-! ## Claim theorems -/

/-- C7: every newly created session's initial status is `Running`
(`createSession`, modelled from the spec because the v3.12 session manager
is absent from the sources; its caller `handleCreateTask` and the v3.12
`TaskStatus` enum corroborate). -/
theorem c7_createSession_initial_running (st : Store) (uid goal : String)
    (cb : Option String) (newSid : String) (now : Nat) :
    ((createSession st uid goal cb newSid now).2).status = .running := rfl

/-- C8 counterexample: ending a fresh session (empty history, step_count 0)
with a result string appends a final ActionRecord but leaves
`metrics.step_count` untouched, so `history.length == metrics.step_count`
fails on the ended session. -/
theorem c8_counterexample :
    ∃ t, (endSession [baseSession] "s1" .completed (some "done") 7).2 = some t ∧
      t.history.length = 1 ∧ t.metrics.step_count = 0 ∧
      ¬ t.history.length = t.metrics.step_count := by
  exact ⟨_, rfl, rfl, rfl, by decide⟩

/-- C8 (amended): `history.length = metrics.step_count` is restored by
`addActionRecord` (which recomputes `step_count`), but a terminal
`endSession` carrying a non-empty result string appends the final record
without updating `step_count`, leaving `history.length = step_count + 1` on
the ended session. -/
theorem c8_step_count_invariant (st : Store) (sid : String) (s : Session)
    (action reason : String) (res : Option String) (now : Nat)
    (hs : getSessionSync st sid = some s)
    (hinv : s.history.length = s.metrics.step_count) :
    (∀ t, getSessionSync (addActionRecord st sid action reason res now) sid = some t →
       t.history.length = t.metrics.step_count) ∧
    (∀ status : TaskStatus, ∀ r t, r ≠ "" →
       (endSession st sid status (some r) now).2 = some t →
       t.history.length = t.metrics.step_count + 1) := by
  constructor
  · intro t ht
    rw [addActionRecord, getSessionSync_modSession] at ht
    · rw [hs] at ht
      simp only [Option.map_some'] at ht
      cases ht
      simp [actionRecordUpd]
    · intro u
      rfl
  · intro status r t hr ht
    have hre : r.isEmpty = false := by
      rcases h : r.isEmpty with _ | _
      · rfl
      · exact absurd ((String.isEmpty_iff r).1 h) hr
    rw [endSession, hs] at ht
    simp only [hre, Bool.false_eq_true, if_false, Option.some.injEq] at ht
    cases ht
    simp [hinv]

/-- C8 witness: the amended invariant applied to a concrete store. -/
theorem c8_step_count_invariant_witness :
    getSessionSync [baseSession] "s1" = some baseSession ∧
    baseSession.history.length = baseSession.metrics.step_count ∧
    (∀ t, getSessionSync (addActionRecord [baseSession] "s1" "click" "r" none 5) "s1" = some t →
       t.history.length = t.metrics.step_count) ∧
    (∀ status : TaskStatus, ∀ r t, r ≠ "" →
       (endSession [baseSession] "s1" status (some r) 5).2 = some t →
       t.history.length = t.metrics.step_count + 1) :=
  ⟨rfl, rfl,
   (c8_step_count_invariant [baseSession] "s1" baseSession "click" "r" none 5 rfl rfl).1,
   (c8_step_count_invariant [baseSession] "s1" baseSession "click" "r" none 5 rfl rfl).2⟩

/-- C9: a user resume signal on a paused session sets it running and
appends a `resume` record; no decision-provider call is made and nothing is
sent to the device (the v3.12 handler waits for the next snapshot). -/
theorem c9_resume_no_decision (st : Store) (sid : String) (now : Nat) (s : Session)
    (hs : getSessionSync st sid = some s) (hp : s.status = .paused) :
    (handleResume st sid now).providerCalls = 0 ∧
    (handleResume st sid now).sent = [] ∧
    (handleResume st sid now).cbs = [] ∧
    ∃ t, getSessionSync (handleResume st sid now).store sid = some t ∧
      t.status = .running ∧
      t.history = s.history ++
        [{ step := s.history.length + 1, timestamp := now, action := "resume",
           reason := "用户点击继续按钮", result := none }] := by
  refine ⟨?_, ?_, ?_, ?_⟩ <;>
    simp only [handleResume, hs, hp, reduceCtorEq, reduceIte, if_true]
  rw [addActionRecord, updateSessionStatus, getSessionSync_modSession]
  · rw [getSessionSync_modSession]
    · rw [hs]
      exact ⟨_, rfl, rfl, rfl⟩
    · intro u
      rfl
  · intro u
    rfl

/-- C3: a running session (below the step cap) whose snapshot matches the
hard-coded sensitive indicators is paused: the gateway sends a `pause`
command, sets the session `paused`, appends a `pause` ActionRecord, and
never invokes the decision provider for that snapshot, whatever the
concurrent environment or the LLM would do. -/
theorem c3_sensitive_gate (st : Store) (msg : UiEvent) (now : Nat)
    (env : Nat → List Interleaved) (attempt : Nat → Nat → LlmAttempt)
    (s : Session) (r : String)
    (hs : getSessionSync st msg.session_id = some s)
    (hrun : s.status = .running)
    (hlen : s.history.length < maxSteps)
    (hdet : detectSensitiveOperations msg = some r) :
    (handleUiEvent st msg now env attempt).providerCalls = 0 ∧
    (handleUiEvent st msg now env attempt).sent = [ServerMsg.action (pauseCmd r)] ∧
    (handleUiEvent st msg now env attempt).cbs = [] ∧
    ∃ t, getSessionSync (handleUiEvent st msg now env attempt).store msg.session_id = some t ∧
      t.status = .paused ∧
      t.history = s.history ++
        [{ step := s.history.length + 1, timestamp := now, action := "pause",
           reason := r, result := none }] := by
  have hlook : getSessionSync (updateUiEvent st msg.session_id msg now) msg.session_id
      = some (uiEventUpd msg now s) := by
    rw [getSessionSync_updateUiEvent, hs]
    rfl
  have h1 : ¬ ((uiEventUpd msg now s).status ≠ TaskStatus.running) := by
    show ¬ (s.status ≠ .running)
    rw [hrun]
    simp
  have h2 : ¬ (maxSteps ≤ (uiEventUpd msg now s).history.length) := by
    show ¬ (maxSteps ≤ s.history.length)
    exact Nat.not_le.mpr hlen
  have hred : handleUiEvent st msg now env attempt =
      { store := addActionRecord
          (updateSessionStatus (updateUiEvent st msg.session_id msg now)
            msg.session_id .paused now) msg.session_id "pause" r none now,
        sent := [ServerMsg.action (pauseCmd r)], cbs := [], providerCalls := 0 } := by
    simp only [handleUiEvent]
    rw [hlook]
    dsimp only
    rw [if_neg h1, if_neg h2, hdet]
  refine ⟨by rw [hred], by rw [hred], by rw [hred], ?_⟩
  rw [hred]
  dsimp only
  rw [getSessionSync_addActionRecord, getSessionSync_updateSessionStatus, hlook]
  exact ⟨_, rfl, rfl, rfl⟩

/-- C3 witness: the `确认支付¥99.00` scenario on a fresh running session. -/
theorem c3_sensitive_gate_witness :
    detectSensitiveOperations sensitiveMsg = some "检测到敏感操作: 支付 (确认支付¥99.00)" ∧
    baseSession.status = .running ∧ baseSession.history.length < maxSteps ∧
    ((handleUiEvent [baseSession] sensitiveMsg 300 envNone llmClickAttempt).providerCalls = 0 ∧
     (handleUiEvent [baseSession] sensitiveMsg 300 envNone llmClickAttempt).sent =
       [ServerMsg.action (pauseCmd "检测到敏感操作: 支付 (确认支付¥99.00)")] ∧
     (handleUiEvent [baseSession] sensitiveMsg 300 envNone llmClickAttempt).cbs = [] ∧
     ∃ t, getSessionSync
         (handleUiEvent [baseSession] sensitiveMsg 300 envNone llmClickAttempt).store
         sensitiveMsg.session_id = some t ∧
       t.status = .paused ∧
       t.history = baseSession.history ++
         [{ step := baseSession.history.length + 1, timestamp := 300,
            action := "pause", reason := "检测到敏感操作: 支付 (确认支付¥99.00)",
            result := none }]) :=
  ⟨rfl, rfl, by decide,
   c3_sensitive_gate [baseSession] sensitiveMsg 300 envNone llmClickAttempt
     baseSession "检测到敏感操作: 支付 (确认支付¥99.00)" rfl rfl (by decide) rfl⟩

/-- C5: a running session whose history already has `maxSteps` (50) records
is ended as `Failed` with the fixed reason `超过最大步骤数限制` on the next
snapshot: only the `task_end` notification goes to the device (no action
command), the provider is not invoked, the session leaves the active
registry, and any delivered callback carries the failed status/reason. -/
theorem c5_max_steps_guard (st : Store) (msg : UiEvent) (now : Nat)
    (env : Nat → List Interleaved) (attempt : Nat → Nat → LlmAttempt) (s : Session)
    (hs : getSessionSync st msg.session_id = some s)
    (hrun : s.status = .running)
    (hlen : maxSteps ≤ s.history.length) :
    (handleUiEvent st msg now env attempt).providerCalls = 0 ∧
    (handleUiEvent st msg now env attempt).sent =
      [ServerMsg.taskEnd msg.session_id "failed" "超过最大步骤数限制"] ∧
    (∀ cmd, ServerMsg.action cmd ∉ (handleUiEvent st msg now env attempt).sent) ∧
    getSessionSync (handleUiEvent st msg now env attempt).store msg.session_id = none ∧
    (∀ c ∈ (handleUiEvent st msg now env attempt).cbs,
       c.status = "failed" ∧ c.result = "超过最大步骤数限制") := by
  have hlook : getSessionSync (updateUiEvent st msg.session_id msg now) msg.session_id
      = some (uiEventUpd msg now s) := by
    rw [getSessionSync_updateUiEvent, hs]
    rfl
  have h1 : ¬ ((uiEventUpd msg now s).status ≠ TaskStatus.running) := by
    show ¬ (s.status ≠ .running)
    rw [hrun]
    simp
  have h2 : maxSteps ≤ (uiEventUpd msg now s).history.length := hlen
  have hred : handleUiEvent st msg now env attempt =
      { store := (endTask (updateUiEvent st msg.session_id msg now) msg.session_id
                    .failed "超过最大步骤数限制" now).1,
        sent := (endTask (updateUiEvent st msg.session_id msg now) msg.session_id
                    .failed "超过最大步骤数限制" now).2.1,
        cbs := (endTask (updateUiEvent st msg.session_id msg now) msg.session_id
                    .failed "超过最大步骤数限制" now).2.2,
        providerCalls := 0 } := by
    simp only [handleUiEvent]
    rw [hlook]
    dsimp only
    rw [if_neg h1, if_pos h2]
  have hend : endSession (updateUiEvent st msg.session_id msg now) msg.session_id
      TaskStatus.failed (some "超过最大步骤数限制") now =
      ((updateUiEvent st msg.session_id msg now).filter
         (fun t => !(t.session_id = msg.session_id : Bool)),
       some { uiEventUpd msg now s with
              status := TaskStatus.failed, updated_at := now,
              history := (uiEventUpd msg now s).history ++
                [{ step := (uiEventUpd msg now s).history.length + 1, timestamp := now,
                   action := "failed", reason := "超过最大步骤数限制",
                   result := some "超过最大步骤数限制" }] }) := by
    simp only [endSession]
    rw [hlook]
    rfl
  refine ⟨by rw [hred], ?_, ?_, ?_, ?_⟩
  · rw [hred]
    dsimp only
    rw [endTask, hend]
    rfl
  · intro cmd
    rw [hred]
    dsimp only
    rw [endTask, hend]
    dsimp only
    intro hmem
    simp at hmem
  · rw [hred]
    dsimp only
    rw [endTask, hend]
    dsimp only
    exact getSessionSync_filter_ne _ _
  · intro c hc
    rw [hred] at hc
    dsimp only at hc
    rw [endTask, hend] at hc
    dsimp only [uiEventUpd] at hc
    rcases hcb : s.callback_url with _ | url
    · rw [hcb] at hc
      simp at hc
    · rw [hcb] at hc
      simp at hc
      rw [hc]
      exact ⟨rfl, rfl⟩

/-- C5 witness: a session with exactly 50 recorded steps. -/
theorem c5_max_steps_guard_witness :
    fullSession.status = .running ∧ maxSteps ≤ fullSession.history.length ∧
    ((handleUiEvent [fullSession] uiMsg1 300 envNone llmClickAttempt).providerCalls = 0 ∧
     (handleUiEvent [fullSession] uiMsg1 300 envNone llmClickAttempt).sent =
       [ServerMsg.taskEnd uiMsg1.session_id "failed" "超过最大步骤数限制"] ∧
     (∀ cmd, ServerMsg.action cmd ∉
        (handleUiEvent [fullSession] uiMsg1 300 envNone llmClickAttempt).sent) ∧
     getSessionSync (handleUiEvent [fullSession] uiMsg1 300 envNone llmClickAttempt).store
       uiMsg1.session_id = none ∧
     (∀ c ∈ (handleUiEvent [fullSession] uiMsg1 300 envNone llmClickAttempt).cbs,
        c.status = "failed" ∧ c.result = "超过最大步骤数限制")) :=
  ⟨rfl, by decide,
   c5_max_steps_guard [fullSession] uiMsg1 300 envNone llmClickAttempt fullSession
     rfl rfl (by decide)⟩

/-- C9 witness: resuming the paused session `s1`. -/
theorem c9_resume_no_decision_witness :
    getSessionSync [pausedSession] "s1" = some pausedSession ∧
    pausedSession.status = .paused ∧
    ((handleResume [pausedSession] "s1" 7).providerCalls = 0 ∧
     (handleResume [pausedSession] "s1" 7).sent = [] ∧
     (handleResume [pausedSession] "s1" 7).cbs = [] ∧
     ∃ t, getSessionSync (handleResume [pausedSession] "s1" 7).store "s1" = some t ∧
       t.status = .running ∧
       t.history = pausedSession.history ++
         [{ step := pausedSession.history.length + 1, timestamp := 7,
            action := "resume", reason := "用户点击继续按钮", result := none }]) :=
  ⟨rfl, rfl, c9_resume_no_decision [pausedSession] "s1" 7 pausedSession rfl rfl⟩

/-- C1 evaluation at the race the claim describes: the session is running
with no call in flight; the decision for the snapshot at device time 100 is
computed while the strictly newer snapshot (time 200) arrives and is
recorded (`latestUiTimestamp` becomes 200).  Because `handleUiEvent` reads
the latest-known timestamp *before* awaiting the provider, the comparison
on return trivially succeeds: the stale decision based on the old snapshot
is accepted and sent to the device, after a single provider call — no
discard, no recomputation against the newer snapshot. -/
theorem c1_stale_decision_is_sent :
    (handleUiEvent [baseSession] uiMsg1 300 envSecondSnapshot llmClickAttempt).providerCalls = 1 ∧
    (handleUiEvent [baseSession] uiMsg1 300 envSecondSnapshot llmClickAttempt).sent =
      [ServerMsg.action (decisionToCommand clickDecision)] ∧
    ∃ t, getSessionSync
        (handleUiEvent [baseSession] uiMsg1 300 envSecondSnapshot llmClickAttempt).store
        "s1" = some t ∧
      t.latestUiTimestamp = 200 ∧ t.status = .running ∧
      t.history = [{ step := 1, timestamp := 300, action := "click",
                     reason := "点击搜索", result := none }] :=
  ⟨rfl, rfl, _, rfl, rfl, rfl, rfl⟩

/-- C4 evaluation: three consecutive snapshots each exhausting the provider
retries (every LLM attempt a retryable network error).  `decide` swallows
each failure and returns the wait(3000) fallback, so the gateway records a
`wait` action and sends the wait command each time: after the third
consecutive failure the session is still `running`, its failure counter was
never incremented, no pause command was sent and no callback delivered —
the catch branch holding the pause-at-3 logic is never reached. -/
theorem c4_consecutive_failures_never_pause :
    failRun1.sent = [ServerMsg.action (decisionToCommand waitFallbackDecision)] ∧
    failRun2.sent = [ServerMsg.action (decisionToCommand waitFallbackDecision)] ∧
    failRun3.sent = [ServerMsg.action (decisionToCommand waitFallbackDecision)] ∧
    (decisionToCommand waitFallbackDecision).action = "wait" ∧
    (decisionToCommand waitFallbackDecision).wait_ms = some 3000 ∧
    failRun1.cbs = [] ∧ failRun2.cbs = [] ∧ failRun3.cbs = [] ∧
    ∃ t, getSessionSync failRun3.store "s1" = some t ∧
      t.status = .running ∧ t.aiFailureCount = 0 ∧
      t.history.map (fun a => a.action) = ["wait", "wait", "wait"] :=
  ⟨rfl, rfl, rfl, rfl, rfl, rfl, rfl, rfl, _, rfl, rfl, rfl, rfl⟩

/-- C10: `AiCore.decide` never propagates an error: it always returns
normally, and whenever the flow reaches the LLM call and that call fails
(retry exhaustion or a non-retryable error), the returned decision is the
safe `wait` fallback with `wait_ms` 3000 and zero token counts — so the
orchestrator's catch branch is unreachable via provider failures. -/
theorem c10_decide_never_fails (ev : UiEvent) (attempt : Nat → LlmAttempt) :
    (∃ r, AiCore.decide ev attempt = .ok r) ∧
    (∀ m, isLoadingState ev = false → secondLayerSensitive ev = none →
       callLlmWithRetry attempt aiRetryMaxAttempts = .error m →
       AiCore.decide ev attempt =
         .ok { decision := waitFallbackDecision, inputTokens := 0,
               outputTokens := 0 }) := by
  constructor
  · rcases h1 : isLoadingState ev with _ | _
    · rcases h2 : secondLayerSensitive ev with _ | r
      · rcases h3 : callLlmWithRetry attempt aiRetryMaxAttempts with m | r
        · refine ⟨{ decision := waitFallbackDecision, inputTokens := 0,
                    outputTokens := 0 }, ?_⟩
          simp [AiCore.decide, decideTry, h1, h2, h3]
        · refine ⟨r, ?_⟩
          simp [AiCore.decide, decideTry, h1, h2, h3]
      · refine ⟨{ decision := pauseDecision r, inputTokens := 0,
                  outputTokens := 0 }, ?_⟩
        simp [AiCore.decide, decideTry, h1, h2]
    · refine ⟨{ decision := waitLoadingDecision, inputTokens := 0,
                outputTokens := 0 }, ?_⟩
      simp [AiCore.decide, decideTry, h1]
  · intro m h1 h2 h3
    simp [AiCore.decide, decideTry, h1, h2, h3]

/-- C10 witness: a snapshot that reaches the LLM, with every attempt failing
with a retryable network error. -/
theorem c10_decide_never_fails_witness :
    isLoadingState uiMsg1 = false ∧ secondLayerSensitive uiMsg1 = none ∧
    callLlmWithRetry (fun _ => .err true "network error") aiRetryMaxAttempts =
      .error "network error" ∧
    AiCore.decide uiMsg1 (fun _ => .err true "network error") =
      .ok { decision := waitFallbackDecision, inputTokens := 0,
            outputTokens := 0 } :=
  ⟨rfl, rfl, rfl,
   (c10_decide_never_fails uiMsg1 (fun _ => .err true "network error")).2
     "network error" rfl rfl rfl⟩

theorem flagClear_endSession_store (st : Store) (sid' sid : String)
    (status : TaskStatus) (r : Option String) (now : Nat)
    (h : flagClear st sid) : flagClear (endSession st sid' status r now).1 sid := by
  unfold endSession
  rcases hx : getSessionSync st sid' with _ | s
  · simpa using h
  · simp only [hx]
    exact flagClear_filter _ _ _ h

theorem flagClear_endTask_store (st : Store) (sid' sid : String)
    (status : TaskStatus) (r : String) (now : Nat)
    (h : flagClear st sid) : flagClear (endTask st sid' status r now).1 sid := by
  unfold endTask
  exact flagClear_endSession_store _ _ _ _ _ _ h

theorem countP_filter_le (l : List Session) (p q : Session → Bool) :
    (l.filter q).countP p ≤ l.countP p := by
  induction l with
  | nil => exact Nat.le_refl 0
  | cons a t ih =>
    rcases hq : q a with _ | _ <;>
      simp only [List.filter_cons, hq, Bool.false_eq_true, if_false, if_true,
        List.countP_cons] <;>
      omega

theorem two_le_countP (l : List Session) (p : Session → Bool) (x y : Session)
    (hx : x ∈ l) (hy : y ∈ l) (hxy : x ≠ y) (hpx : p x) (hpy : p y) :
    2 ≤ l.countP p := by
  induction l with
  | nil => cases hx
  | cons a t ih =>
    rcases List.mem_cons.1 hx with hax | hxt
    · have hyt : y ∈ t := by
        rcases List.mem_cons.1 hy with hay | h
        · exact absurd (hax ▸ hay ▸ rfl) hxy
        · exact h
      have h1 : 0 < t.countP p := List.countP_pos_iff.2 ⟨y, hyt, hpy⟩
      have hpa : p a = true := hax ▸ hpx
      rw [List.countP_cons, hpa,
        show (if (true : Bool) = true then 1 else 0) = 1 from rfl]
      omega
    · rcases List.mem_cons.1 hy with hay | hyt
      · have h1 : 0 < t.countP p := List.countP_pos_iff.2 ⟨x, hxt, hpx⟩
        have hpa : p a = true := hay ▸ hpy
        rw [List.countP_cons, hpa,
          show (if (true : Bool) = true then 1 else 0) = 1 from rfl]
        omega
      · have h2 := ih hxt hyt
        rw [List.countP_cons]
        omega


/-- C2: the per-session decision mutex: a snapshot arriving for a session
whose `aiCallInFlight` flag is set triggers no decision-provider call at
all; and a full `handleUiEvent` cycle starting with the flag clear leaves it
clear on every exit path (give-up, catch, accept — the `finally` release),
whatever the interleaved events and provider behaviour.  -/
theorem c2_mutex (st : Store) (msg : UiEvent) (now : Nat)
    (env : Nat → List Interleaved) (attempt : Nat → Nat → LlmAttempt) :
    (∀ s, getSessionSync st msg.session_id = some s → s.aiCallInFlight = true →
       (handleUiEvent st msg now env attempt).providerCalls = 0) ∧
    (flagClear st msg.session_id →
       flagClear (handleUiEvent st msg now env attempt).store msg.session_id) := by
  constructor
  · intro s hs hflag
    have hlook : getSessionSync (updateUiEvent st msg.session_id msg now) msg.session_id
        = some (uiEventUpd msg now s) := by
      rw [getSessionSync_updateUiEvent, hs]
      rfl
    simp only [handleUiEvent]
    rw [hlook]
    dsimp only
    by_cases hst : (uiEventUpd msg now s).status ≠ TaskStatus.running
    · rw [if_pos hst]
    · rw [if_neg hst]
      by_cases hms : maxSteps ≤ (uiEventUpd msg now s).history.length
      · rw [if_pos hms]
      · rw [if_neg hms]
        rcases hdet : detectSensitiveOperations msg with _ | r
        · dsimp only
          have hfl : (uiEventUpd msg now s).aiCallInFlight = true := hflag
          rw [if_pos hfl]
        · rfl
  · intro hclear
    simp only [handleUiEvent]
    rcases hlook : getSessionSync (updateUiEvent st msg.session_id msg now) msg.session_id
      with _ | ses
    · exact flagClear_modSession st _ _ _ (fun _ => rfl) (fun _ => rfl) hclear
    · dsimp only
      by_cases hst : ses.status ≠ TaskStatus.running
      · rw [if_pos hst]
        exact flagClear_modSession st _ _ _ (fun _ => rfl) (fun _ => rfl) hclear
      · rw [if_neg hst]
        by_cases hms : maxSteps ≤ ses.history.length
        · rw [if_pos hms]
          exact flagClear_endTask_store _ _ _ _ _ _
            (flagClear_modSession st _ _ _ (fun _ => rfl) (fun _ => rfl) hclear)
        · rw [if_neg hms]
          rcases hdet : detectSensitiveOperations msg with _ | r
          · dsimp only
            by_cases hfl : ses.aiCallInFlight = true
            · rw [if_pos hfl]
              exact flagClear_modSession st _ _ _ (fun _ => rfl) (fun _ => rfl) hclear
            · rw [if_neg hfl]
              dsimp only
              exact flagClear_setAiCallInFlight_false _ _
          · dsimp only
            exact flagClear_modSession _ _ _ _ (fun _ => rfl) (fun _ => rfl)
              (flagClear_modSession _ _ _ _ (fun _ => rfl) (fun _ => rfl)
                (flagClear_modSession st _ _ _ (fun _ => rfl) (fun _ => rfl) hclear))

/-- C2 witness: a snapshot against an in-flight session makes no provider
call; a full cycle on a clear session leaves every flag clear. -/
theorem c2_mutex_witness :
    getSessionSync [busySession] uiMsg1.session_id = some busySession ∧
    busySession.aiCallInFlight = true ∧
    (handleUiEvent [busySession] uiMsg1 300 envNone llmClickAttempt).providerCalls = 0 ∧
    flagClear (handleUiEvent [baseSession] uiMsg1 300 envSecondSnapshot
      llmClickAttempt).store uiMsg1.session_id :=
  ⟨rfl, rfl,
   (c2_mutex [busySession] uiMsg1 300 envNone llmClickAttempt).1 busySession rfl rfl,
   (c2_mutex [baseSession] uiMsg1 300 envSecondSnapshot llmClickAttempt).2
     (by
       intro t ht hts
       cases List.mem_singleton.1 ht
       rfl)⟩

/-- C6: creating a task cancels the user's active session before creating
the new one, so "at most one non-terminal session per user" is preserved:
if it holds before `handleCreateTask`, it holds after; the user ends with
exactly one active session (the fresh `running` one) and the cancelled
session's id is no longer in the registry. -/
theorem c6_single_active (st : Store) (uid goal : String) (cb : Option String)
    (newSid : String) (now : Nat)
    (hinv : ∀ u, activeCount st u ≤ 1)
    (huid : uid ≠ "") (hgoal : goal ≠ "")
    (hfresh : ∀ s ∈ st, s.session_id ≠ newSid) :
    ∃ st' ns, handleCreateTask st uid goal cb newSid now = .ok (st', ns) ∧
      ns.session_id = newSid ∧ ns.status = .running ∧
      (∀ u, activeCount st' u ≤ 1) ∧ activeCount st' uid = 1 ∧
      (∀ old, getUserActiveSessionSync st uid = some old →
         ∀ t ∈ st', t.session_id ≠ old.session_id) := by
  have hcond : ¬ (uid = "" ∨ goal = "") := not_or.mpr ⟨huid, hgoal⟩
  have hnew_zero : ∀ u, u ≠ uid →
      ([(createSession st uid goal cb newSid now).2].countP
        (fun s => s.user_id = u && s.status.isActive)) = 0 := by
    intro u hu
    rw [List.countP_eq_zero]
    intro a ha hpa
    rcases List.mem_singleton.1 ha
    simp only [Bool.and_eq_true, decide_eq_true_eq] at hpa
    exact hu (hpa.1 ▸ rfl)
  have hnew_one :
      ([(createSession st uid goal cb newSid now).2].countP
        (fun s => s.user_id = uid && s.status.isActive)) = 1 := by
    simp [createSession, TaskStatus.isActive]
  rcases hfind : getUserActiveSessionSync st uid with _ | old
  · -- no existing active session
    have hfind' : st.find? (fun s => s.user_id = uid && s.status.isActive) = none := hfind
    have hzero : st.countP (fun s => s.user_id = uid && s.status.isActive) = 0 := by
      rw [List.countP_eq_zero]
      intro a ha hpa
      exact absurd hpa ((List.find?_eq_none.1 hfind') a ha)
    refine ⟨st ++ [(createSession st uid goal cb newSid now).2],
      (createSession st uid goal cb newSid now).2, ?_, rfl, rfl, ?_, ?_, ?_⟩
    · simp only [handleCreateTask, if_neg hcond, hfind]
      rfl
    · intro u
      rw [activeCount, List.countP_append]
      by_cases hu : u = uid
      · rw [hu, hzero, hnew_one]
      · rw [hnew_zero u hu]
        have := hinv u
        rw [activeCount] at this
        omega
    · rw [activeCount, List.countP_append, hzero, hnew_one]
    · intro old h
      cases h
  · -- an active session is cancelled first
    have hfind' : st.find? (fun s => s.user_id = uid && s.status.isActive) = some old := hfind
    have hpold := List.find?_some hfind'
    have hmemold : old ∈ st := List.mem_of_find?_eq_some hfind'
    have hsome : (st.find? (fun s => s.session_id = old.session_id)).isSome :=
      List.find?_isSome.2 ⟨old, hmemold, by simp⟩
    rcases hw : st.find? (fun s => s.session_id = old.session_id) with _ | w
    · rw [hw] at hsome
      cases hsome
    have hstore : (endSession st old.session_id .cancelled (some "新任务覆盖") now).1 =
        st.filter (fun t => !(t.session_id = old.session_id : Bool)) := by
      simp only [endSession, getSessionSync]
      rw [hw]
    have hok : handleCreateTask st uid goal cb newSid now =
        .ok ((endSession st old.session_id .cancelled (some "新任务覆盖") now).1 ++
               [(createSession st uid goal cb newSid now).2],
             (createSession st uid goal cb newSid now).2) := by
      simp only [handleCreateTask, if_neg hcond, hfind]
      rfl
    have hzero : (st.filter (fun t => !(t.session_id = old.session_id : Bool))).countP
        (fun s => s.user_id = uid && s.status.isActive) = 0 := by
      rw [List.countP_eq_zero]
      intro a ha hpa
      have hamem : a ∈ st := List.mem_of_mem_filter ha
      have hasid : a.session_id ≠ old.session_id := by
        have := (List.mem_filter.1 ha).2
        simpa using this
      have hane : a ≠ old := fun h => hasid (h ▸ rfl)
      have h2 := two_le_countP st (fun s => s.user_id = uid && s.status.isActive)
        a old hamem hmemold hane hpa hpold
      have h3 := hinv uid
      rw [activeCount] at h3
      omega
    refine ⟨_, _, hok, rfl, rfl, ?_, ?_, ?_⟩
    · intro u
      rw [hstore, activeCount, List.countP_append]
      by_cases hu : u = uid
      · rw [hu, hzero, hnew_one]
      · rw [hnew_zero u hu]
        have hle := countP_filter_le st (fun s => s.user_id = u && s.status.isActive)
          (fun t => !(t.session_id = old.session_id : Bool))
        have := hinv u
        rw [activeCount] at this
        omega
    · rw [hstore, activeCount, List.countP_append, hzero, hnew_one]
    · intro old' h t ht
      cases h
      rw [hstore] at ht
      rcases List.mem_append.1 ht with hf | hn
      · have := (List.mem_filter.1 hf).2
        simpa using this
      · rcases List.mem_singleton.1 hn
        show newSid ≠ old.session_id
        exact fun h => (hfresh old hmemold) h.symm
/-- C6 witness: user `u1` already has the active session `s1`; creating a
new task replaces it with the fresh running session `s2`. -/
theorem c6_single_active_witness :
    (∀ u, activeCount [baseSession] u ≤ 1) ∧
    (∃ st' ns, handleCreateTask [baseSession] "u1" "购物" none "s2" 9 = .ok (st', ns) ∧
      ns.session_id = "s2" ∧ ns.status = .running ∧
      (∀ u, activeCount st' u ≤ 1) ∧ activeCount st' "u1" = 1 ∧
      (∀ old, getUserActiveSessionSync [baseSession] "u1" = some old →
         ∀ t ∈ st', t.session_id ≠ old.session_id)) :=
  have hinv : ∀ u, activeCount [baseSession] u ≤ 1 := by
    intro u
    rw [activeCount]
    exact Nat.le_trans (List.countP_le_length _) (by simp)
  ⟨hinv,
   c6_single_active [baseSession] "u1" "购物" none "s2" 9 hinv (by decide) (by decide)
     (by
       intro s hs
       cases List.mem_singleton.1 hs
       decide)⟩

end GhostTap
